import Mathlib

/-!
Shallow embedding of `eth_health_check.py` (Enhanced Ethereum Node Health
Checker) and proofs about its connection classifier, retrying request
executor, node checks and summary logic.

External effects (sockets, HTTP, wall-clock time) are modelled by oracle
environments: a function from the attempt index to the outcome the outside
world produced for that attempt.  Python floats are modelled as rationals,
Python ints as `Int`/`Nat`, raised exceptions as `Option`/explicit
fall-through to the unchanged state, and JSON values as the `PyVal` type.
-/

/-- Arithmetic mean, modelling `statistics.mean` on a non-empty list
(callers model the `StatisticsError` on `[]` explicitly). -/
def mean (l : List ℚ) : ℚ := l.sum / l.length

/-- Rounding with ties to even (`round q`), as used by Python float
formatting `:.0f`. -/
def roundHalfEven (q : ℚ) : Int :=
  let f := ⌊q⌋
  let frac := q - f
  if frac < 1/2 then f
  else if 1/2 < frac then f + 1
  else if f % 2 = 0 then f else f + 1

/-- Python `f"{x:.0f}"` for a (rational-modelled) float. -/
def fmt0 (q : ℚ) : String := toString (roundHalfEven q)

/-- Groups a reversed digit list into chunks of three, least significant
first: helper for Python `f"{n:,}"` formatting. -/
def group3 : List Char → List (List Char)
  | [] => []
  | [a] => [[a]]
  | [a, b] => [[a, b]]
  | [a, b, c] => [[a, b, c]]
  | a :: b :: c :: d :: rest => [a, b, c] :: group3 (d :: rest)

/-- Python `f"{n:,}"`: decimal digits in groups of three separated by
commas, with a leading minus sign for negatives. -/
def fmtComma (n : Int) : String :=
  let ds := (toString n.natAbs).toList
  let grouped := ((group3 ds.reverse).reverse).map (fun g => g.reverse)
  let s := String.mk (List.intercalate [','] grouped)
  if n < 0 then "-" ++ s else s

/-- Whether `pat` is an initial segment of `s` (used to locate substring
separators, as Python `str.split` does). -/
def startsWithChars : List Char → List Char → Bool
  | [], _ => true
  | _ :: _, [] => false
  | c :: cs, d :: ds => c == d && startsWithChars cs ds

/-- Splits at the first occurrence of the (non-empty) separator `sep`:
`some (before, after)`, or `none` when `sep` does not occur.  Models both
Python `sep in s` and `s.split(sep, 1)`. -/
def splitFirst (sep : List Char) : List Char → Option (List Char × List Char)
  | [] => none
  | c :: cs =>
    if startsWithChars sep (c :: cs) then some ([], (c :: cs).drop sep.length)
    else
      match splitFirst sep cs with
      | none => none
      | some (before, after) => some (c :: before, after)

/-- Python `s.split(c)` for a single-character separator (always returns at
least one piece; empty pieces are kept). -/
def splitAll (c : Char) : List Char → List (List Char)
  | [] => [[]]
  | d :: ds =>
    let rest := splitAll c ds
    if d == c then [] :: rest
    else
      match rest with
      | [] => [[d]]
      | r :: rs => (d :: r) :: rs

/-- Value of a decimal digit character. -/
def digitVal (c : Char) : Option Nat :=
  if c.isDigit then some (c.toNat - 48) else none

/-- Value of a non-empty all-decimal-digit character list. -/
def decDigitsVal (cs : List Char) : Option Nat :=
  if cs.isEmpty then none
  else
    cs.foldl
      (fun acc c =>
        match acc, digitVal c with
        | some n, some d => some (n * 10 + d)
        | _, _ => none)
      (some 0)

/-- Models Python `int(s)` on a string: strips surrounding whitespace,
accepts an optional sign followed by decimal digits, and fails
(`ValueError`, modelled as `none`) otherwise.  Underscore digit grouping
is not modelled. -/
def pyIntChars (cs : List Char) : Option Int :=
  match (cs.dropWhile (fun c => c.isWhitespace)).reverse.dropWhile
      (fun c => c.isWhitespace) |>.reverse with
  | '-' :: rest => (decDigitsVal rest).map (fun n => -(n : Int))
  | '+' :: rest => (decDigitsVal rest).map (fun n => (n : Int))
  | rest => (decDigitsVal rest).map (fun n => (n : Int))

/-- Value of a hexadecimal digit character. -/
def hexDigitVal (c : Char) : Option Nat :=
  if c.isDigit then some (c.toNat - 48)
  else if 97 ≤ c.toNat && c.toNat ≤ 102 then some (c.toNat - 87)
  else if 65 ≤ c.toNat && c.toNat ≤ 70 then some (c.toNat - 55)
  else none

/-- Value of a non-empty all-hex-digit character list. -/
def hexDigitsVal (cs : List Char) : Option Nat :=
  if cs.isEmpty then none
  else
    cs.foldl
      (fun acc c =>
        match acc, hexDigitVal c with
        | some n, some d => some (n * 16 + d)
        | _, _ => none)
      (some 0)

/-- Drops an optional `0x` / `0X` base marker, as accepted by
`int(s, 16)`. -/
def dropHexMarker : List Char → List Char
  | '0' :: 'x' :: rest => rest
  | '0' :: 'X' :: rest => rest
  | cs => cs

/-- Models Python `int(s, 16)` on a string: optional whitespace, optional
sign, optional `0x` marker, then hex digits. -/
def pyIntHexChars (cs : List Char) : Option Int :=
  match (cs.dropWhile (fun c => c.isWhitespace)).reverse.dropWhile
      (fun c => c.isWhitespace) |>.reverse with
  | '-' :: rest => (hexDigitsVal (dropHexMarker rest)).map (fun n => -(n : Int))
  | '+' :: rest => (hexDigitsVal (dropHexMarker rest)).map (fun n => (n : Int))
  | rest => (hexDigitsVal (dropHexMarker rest)).map (fun n => (n : Int))

/-- Python values as produced by `response.json()`: the JSON fragment of
Python's data model that the checker manipulates. -/
inductive PyVal where
  | null
  | bool (b : Bool)
  | int (n : Int)
  | str (s : String)
  | list (xs : List PyVal)
  | dict (kvs : List (String × PyVal))

/-- First value bound to `key` in a key/value list. -/
def pyLookup : List (String × PyVal) → String → Option PyVal
  | [], _ => none
  | (k, v) :: rest, key => if k = key then some v else pyLookup rest key

/-- Models Python `d.get(key, default)`: returns the stored value or the
default on a dict, and raises (`none`) on any non-dict value
(`AttributeError`). -/
def PyVal.get : PyVal → String → PyVal → Option PyVal
  | .dict kvs, key, dflt => some ((pyLookup kvs key).getD dflt)
  | _, _, _ => none

/-- Python truthiness of a value. -/
def PyVal.truthy : PyVal → Bool
  | .null => false
  | .bool b => b
  | .int n => n != 0
  | .str s => !(s == "")
  | .list xs => !xs.isEmpty
  | .dict kvs => !kvs.isEmpty

/-- Models Python `len(x)`: defined on strings, lists and dicts, raises
(`none`) otherwise (`TypeError`). -/
def PyVal.pyLen : PyVal → Option Nat
  | .str s => some s.length
  | .list xs => some xs.length
  | .dict kvs => some kvs.length
  | _ => none

/-- Models Python `x > m` against an int: defined for ints and bools
(bools compare as 0/1), raises (`none`) on other types (`TypeError`). -/
def PyVal.gtInt : PyVal → Int → Option Bool
  | .int n, m => some (decide (n > m))
  | .bool b, m => some (decide ((if b then (1 : Int) else 0) > m))
  | _, _ => none

/-- Python `str(x)` as used in f-string interpolation (containers shown
with their element displays; quoting of nested strings is not modelled). -/
def PyVal.toDisplay : PyVal → String
  | .null => "None"
  | .bool b => if b then "True" else "False"
  | .int n => toString n
  | .str s => s
  | .list _ => "[...]"
  | .dict _ => "\x7b...\x7d"

/-- Models Python `int(x, 16)` on an arbitrary value: `int` with an
explicit base requires a string argument (`TypeError` otherwise). -/
def pyIntHex16 : PyVal → Option Int
  | .str s => pyIntHexChars s.toList
  | _ => none

/-- Model of `parse_url` (source lines 145-165): extracts host and port from a URL,
returning `none` where the Python code returns `(None, None)` after
catching the `ValueError` from `int(...)` or from tuple unpacking. -/
def parse_url (url : String) (default_port : Int) : Option (String × Int) :=
  let cs := url.toList
  match splitFirst [':', '/', '/'] cs with
  | some (protocolCs, restCs) =>
    match splitFirst [':'] restCs with
    | some (hostCs, portPartCs) =>
      match pyIntChars ((splitAll '/' portPartCs).headD []) with
      | some n => some (String.mk hostCs, n)
      | none => none
    | none =>
      let hostCs := (splitAll '/' restCs).headD []
      some (String.mk hostCs,
        if protocolCs == "https".toList then 443 else default_port)
  | none =>
    match splitAll ':' cs with
    | [host, p] =>
      match pyIntChars p with
      | some n => some (String.mk host, n)
      | none => none
    | [host] => some (String.mk host, default_port)
    | _ => none

/-- One record of `test_connection_advanced`'s result list (a Python dict
with keys `success`, `latency`, `attempt` and, for exceptions, `error`). -/
structure ConnectionAttempt where
  success : Bool
  latency : ℚ
  attempt : Nat
  error : Option String
deriving DecidableEq

/-- Outcome the operating system produced for one raw TCP connect attempt:
either `connect_ex` returned a result code, or socket setup raised. -/
inductive ConnOutcome where
  | code (result : Int) (latency : ℚ)
  | exn (msg : String) (latency : ℚ)

/-- Model of `test_connection_advanced` (source lines 109-143): one record is
appended per loop iteration, whether `connect_ex` returned or raised; the
post-success `time.sleep(0.1)` has no observable effect on the result. -/
def test_connection_advanced (retries : Nat) (env : Nat → ConnOutcome) :
    List ConnectionAttempt :=
  (List.range retries).map fun attempt =>
    match env attempt with
    | .code result latency =>
      { success := result == 0, latency := latency, attempt := attempt + 1,
        error := none }
    | .exn msg latency =>
      { success := false, latency := latency, attempt := attempt + 1,
        error := some msg }

/-- Model of `diagnose_connection_issues` (source lines 212-264).  Result `none`
models the uncaught `StatisticsError` that `statistics.mean([])` raises
when the attempt list is empty (both partitions empty); the Python code
computes the mean inside the branch that was selected, which is
equivalent. -/
def diagnose_connection_issues (timeout : Nat) (port : Int)
    (connection_attempts : List ConnectionAttempt) :
    Option (String × List String) :=
  let successful_attempts := connection_attempts.filter (fun a => a.success)
  let failed_attempts := connection_attempts.filter (fun a => !a.success)
  if successful_attempts.isEmpty then
    if failed_attempts.isEmpty then none
    else
      let avg_latency := mean (failed_attempts.map (fun a => a.latency))
      if avg_latency > (timeout : ℚ) * 1000 * (9/10) then
        some ("critical",
          ["Connection timeout - service likely not running or severely overloaded",
           "Average timeout: " ++ fmt0 avg_latency ++ "ms (limit: " ++
             toString (timeout * 1000) ++ "ms)",
           "Check: sudo systemctl status [service-name]",
           "Check: netstat -tlnp | grep \x7bport\x7d"])
      else if avg_latency > 5000 then
        some ("critical",
          ["Severe network latency or system overload",
           "Average response time: " ++ fmt0 avg_latency ++ "ms",
           "Check: System resources (CPU, Memory, Disk I/O)",
           "Check: Network connectivity and firewall rules"])
      else
        some ("error",
          ["Port closed or service not responding",
           "Connection refused after " ++ fmt0 avg_latency ++ "ms",
           "Check: sudo ufw status (firewall on port " ++ toString port ++ ")",
           "Check: Service configuration and binding address"])
  else
    let success_rate :=
      (successful_attempts.length : ℚ) / (connection_attempts.length : ℚ) * 100
    let avg_latency := mean (successful_attempts.map (fun a => a.latency))
    if success_rate < 100 then
      some ("warning",
        ["Intermittent connectivity (" ++ fmt0 success_rate ++ "% success rate)",
         "Average latency: " ++ fmt0 avg_latency ++ "ms",
         "Check: Network stability and system load",
         "Consider: Increasing timeout values"])
    else if avg_latency > 1000 then
      some ("warning",
        ["High latency detected",
         "Average response time: " ++ fmt0 avg_latency ++ "ms",
         "Check: System performance and network conditions",
         "Consider: Hardware upgrade if consistently slow"])
    else
      some ("success",
        ["Connection stable (latency: " ++ fmt0 avg_latency ++ "ms)"])

/-- The slice of a `requests` response object that the checker reads:
`status_code`, plus the parsed body that `.json()` would return (`none`
when `.json()` would raise on a malformed body). -/
structure Response where
  status_code : Nat
  body : Option PyVal

/-- Outcome the network produced for one HTTP attempt: either a response
object (any status code) or a raised exception. -/
inductive AttemptResult where
  | ok (resp : Response) (latency : ℚ)
  | exn (msg : String) (latency : ℚ)

/-- The performance dict `make_request_with_retry` returns alongside the
response. -/
structure RequestOutcome where
  latencies : List ℚ
  avg_latency : ℚ
  attempts : Nat
  errors : List String

/-- Whether an attempt outcome is a response with HTTP status 200. -/
def is200 : AttemptResult → Bool
  | .ok resp _ => resp.status_code == 200
  | .exn _ _ => false

/-- Whether an attempt outcome is a raised exception. -/
def isExn : AttemptResult → Bool
  | .ok _ _ => false
  | .exn _ _ => true

/-- The retry loop of `make_request_with_retry` (source lines 172-210).
`fuel` counts the remaining iterations of `for attempt in range(retries)`
and `attempt` is the current loop index.  The third component of the
result is the trace of `time.sleep` waits performed (in milliseconds):
the source sleeps only in the `except` clause, and only when
`attempt < retries - 1`. -/
def requestLoop (env : Nat → AttemptResult) (retries : Nat) :
    Nat → Nat → List ℚ → List String → List ℚ →
    Option Response × RequestOutcome × List ℚ
  | 0, _attempt, latencies, errors, sleeps =>
    (none,
     { latencies := latencies,
       avg_latency := if latencies.isEmpty then 0 else mean latencies,
       attempts := retries, errors := errors },
     sleeps)
  | fuel + 1, attempt, latencies, errors, sleeps =>
    match env attempt with
    | .ok resp latency =>
      let latencies := latencies ++ [latency]
      if resp.status_code == 200 then
        (some resp,
         { latencies := latencies, avg_latency := mean latencies,
           attempts := attempt + 1, errors := errors },
         sleeps)
      else
        requestLoop env retries fuel (attempt + 1) latencies
          (errors ++ ["HTTP " ++ toString resp.status_code]) sleeps
    | .exn msg latency =>
      let latencies := latencies ++ [latency]
      let errors := errors ++ [msg]
      let sleeps :=
        if attempt < retries - 1 then sleeps ++ [(500 : ℚ)] else sleeps
      requestLoop env retries fuel (attempt + 1) latencies errors sleeps

/-- Model of `make_request_with_retry` (source lines 167-210): at most `retries`
HTTP attempts, immediate return on the first status-200 response,
otherwise the error is recorded and the loop continues.  An unsupported
method raises `ValueError` inside the `try`, which is just the
environment answering every attempt with an exception outcome. -/
def make_request_with_retry (retries : Nat) (env : Nat → AttemptResult) :
    Option Response × RequestOutcome × List ℚ :=
  requestLoop env retries retries 0 [] [] []

/-- The `beacon_results` dict (source lines 299-307).  The invalid-URL
early return at line 297 builds a dict with only the `reachable`,
`healthy` and `issues` keys; since every consumer reads the other keys
through `.get` with exactly these defaults, both dicts are modelled by
this one record type. -/
structure BeaconResults where
  reachable : Bool := false
  healthy : Bool := false
  synced : Bool := false
  peers : Nat := 0
  version : PyVal := .str "Unknown"
  performance : List (String × RequestOutcome) := []
  issues : List String := []

/-- The `sepolia_results` dict (source lines 416-425), with the same
convention for the invalid-URL early return at line 414.  The
`block_time_analysis` sub-dict is empty until the analysis runs, is then
set to both keys at once, and is only ever read back whole: it is
modelled as `Option (avg_block_time, last_block_age)`. -/
structure SepoliaResults where
  reachable : Bool := false
  synced : Bool := false
  chain_id : Int := 0
  latest_block : Int := 0
  peers : Int := 0
  performance : List (String × RequestOutcome) := []
  issues : List String := []
  block_time_analysis : Option (ℚ × ℚ) := none

/-- Count of externally visible probe effects performed by a check:
raw TCP connect attempts and HTTP request attempts. -/
structure Trace where
  conn_attempts : Nat
  http_requests : Nat
deriving DecidableEq

/-- Beacon health-endpoint handling (source lines 326-337): a status-200
response marks the node healthy, anything else appends the three
error-detail lines to `issues`. -/
def beacon_health_block (resp : Option Response) (perf : RequestOutcome)
    (r : BeaconResults) : BeaconResults :=
  match resp with
  | some response =>
    if response.status_code == 200 then { r with healthy := true }
    else
      { r with issues := r.issues ++
          ["Health endpoint failed after " ++ toString perf.attempts ++ " attempts",
           "Average latency: " ++ fmt0 perf.avg_latency ++ "ms",
           "Errors: " ++ String.intercalate ", " perf.errors] }
  | none =>
    { r with issues := r.issues ++
        ["Health endpoint failed after " ++ toString perf.attempts ++ " attempts",
         "Average latency: " ++ fmt0 perf.avg_latency ++ "ms",
         "Errors: " ++ String.intercalate ", " perf.errors] }

/-- Beacon sync-status handling (source lines 343-368).  Every raise point
inside the `try` (malformed body, `.get` on a non-dict, a non-numeric
`sync_distance` in the comparison) falls to the enclosing `except`, which
only logs: the result record is returned unchanged from that point. -/
def beacon_sync_block (resp : Option Response) (r : BeaconResults) :
    BeaconResults :=
  match resp with
  | none => r
  | some response =>
    if response.status_code == 200 then
      match response.body with
      | none => r
      | some sync_data =>
        match sync_data.get "data" (.dict []) with
        | none => r
        | some dataVal =>
          match dataVal.get "is_syncing" (.bool true) with
          | none => r
          | some is_syncing =>
            if !is_syncing.truthy then { r with synced := true }
            else
              match sync_data.get "data" (.dict []) with
              | none => r
              | some sync_info =>
                match sync_info.get "head_slot" (.int 0) with
                | none => r
                | some _head_slot =>
                  match sync_info.get "sync_distance" (.int 0) with
                  | none => r
                  | some sync_distance =>
                    match sync_distance.gtInt 100 with
                    | none => r
                    | some gt =>
                      if gt then
                        { r with issues := r.issues ++
                            ["Syncing behind by " ++ sync_distance.toDisplay ++
                             " slots"] }
                      else r
    else r

/-- Beacon peer-count handling (source lines 374-392): `peers` is set from
`len(data)`, then the peer count is classified by the ≥50 / ≥10 / ≥3
tiers, the lower two of which append an issue. -/
def beacon_peers_block (resp : Option Response) (r : BeaconResults) :
    BeaconResults :=
  match resp with
  | none => r
  | some response =>
    if response.status_code == 200 then
      match response.body with
      | none => r
      | some peers_data =>
        match peers_data.get "data" (.list []) with
        | none => r
        | some dataVal =>
          match dataVal.pyLen with
          | none => r
          | some peer_count =>
            let r := { r with peers := peer_count }
            if peer_count ≥ 50 then r
            else if peer_count ≥ 10 then r
            else if peer_count ≥ 3 then
              { r with issues := r.issues ++
                  ["Low peer count may affect sync performance"] }
            else
              { r with issues := r.issues ++
                  ["Very low peer count - check network connectivity"] }
    else r

/-- Beacon version handling (source lines 395-403): stores whatever value
sits under `data.version` (default `"Unknown"`); parse failures only
log. -/
def beacon_version_block (resp : Option Response) (r : BeaconResults) :
    BeaconResults :=
  match resp with
  | none => r
  | some response =>
    if response.status_code == 200 then
      match response.body with
      | none => r
      | some version_data =>
        match version_data.get "data" (.dict []) with
        | none => r
        | some dataVal =>
          match dataVal.get "version" (.str "Unknown") with
          | none => r
          | some version => { r with version := version }
    else r

/-- Oracle for everything outside the process during a beacon check: TCP
connect outcomes and, per endpoint, the HTTP outcome of each attempt. -/
structure BeaconEnv where
  conn : Nat → ConnOutcome
  health : Nat → AttemptResult
  syncing : Nat → AttemptResult
  peers : Nat → AttemptResult
  version : Nat → AttemptResult

/-- Model of `check_beacon_node_enhanced` (source lines 290-405), paired with the
trace of probe effects performed.  Overall `none` models the uncaught
`StatisticsError` that `diagnose_connection_issues` raises when
`retries = 0` (empty attempt list). -/
def check_beacon_node_enhanced (timeout : Nat) (retries : Nat) (url : String)
    (env : BeaconEnv) : Option (BeaconResults × Trace) :=
  match parse_url url 5052 with
  | none =>
    some ({ reachable := false, healthy := false,
            issues := ["Invalid URL format"] },
          ⟨0, 0⟩)
  | some (host, port) =>
    if host = "" then
      some ({ reachable := false, healthy := false,
              issues := ["Invalid URL format"] },
            ⟨0, 0⟩)
    else
      let connection_attempts := test_connection_advanced retries env.conn
      match diagnose_connection_issues timeout port connection_attempts with
      | none => none
      | some (_status, details) =>
        let beacon_results : BeaconResults := {}
        if !(connection_attempts.any (fun a => a.success)) then
          some ({ beacon_results with
                    issues := beacon_results.issues ++ details },
                ⟨connection_attempts.length, 0⟩)
        else
          let beacon_results := { beacon_results with reachable := true }
          let hc := make_request_with_retry retries env.health
          let beacon_results := { beacon_results with
            performance := beacon_results.performance ++
              [("health_check", hc.2.1)] }
          let beacon_results := beacon_health_block hc.1 hc.2.1 beacon_results
          let sc := make_request_with_retry retries env.syncing
          let beacon_results := { beacon_results with
            performance := beacon_results.performance ++
              [("sync_check", sc.2.1)] }
          let beacon_results := beacon_sync_block sc.1 beacon_results
          let pc := make_request_with_retry retries env.peers
          let beacon_results := { beacon_results with
            performance := beacon_results.performance ++
              [("peer_check", pc.2.1)] }
          let beacon_results := beacon_peers_block pc.1 beacon_results
          let vc := make_request_with_retry retries env.version
          let beacon_results := beacon_version_block vc.1 beacon_results
          some (beacon_results,
                ⟨connection_attempts.length,
                 hc.2.1.latencies.length + sc.2.1.latencies.length +
                   pc.2.1.latencies.length + vc.2.1.latencies.length⟩)

/-- Sepolia chain-ID handling (source lines 445-460): parses
`result` as a base-16 int, stores it, and classifies it — 11155111 is the
expected Sepolia testnet (no issue), 1 is mainnet (wrong-network issue),
anything else is an unknown network (issue naming the chain ID).  Parse
failures fall to the `except`, which only logs. -/
def sepolia_chain_id_block (resp : Option Response) (r : SepoliaResults) :
    SepoliaResults :=
  match resp with
  | none => r
  | some response =>
    if response.status_code == 200 then
      match response.body with
      | none => r
      | some j =>
        match j.get "result" (.str "0x0") with
        | none => r
        | some resultVal =>
          match pyIntHex16 resultVal with
          | none => r
          | some chain_id =>
            let r := { r with chain_id := chain_id }
            if chain_id == 11155111 then r
            else if chain_id == 1 then
              { r with issues := r.issues ++
                  ["Wrong network - connected to mainnet"] }
            else
              { r with issues := r.issues ++
                  ["Unknown network (Chain ID: " ++ toString chain_id ++ ")"] }
    else r

/-- One entry of the `recent_blocks` list (source lines 489-492). -/
structure RecentBlock where
  number : Int
  timestamp : Int

/-- Oracle for everything outside the process during a Sepolia check. -/
structure SepoliaEnv where
  conn : Nat → ConnOutcome
  chainId : Nat → AttemptResult
  blockNumber : Nat → AttemptResult
  getBlock : Int → Nat → AttemptResult
  ethSyncing : Nat → AttemptResult
  peerCount : Nat → AttemptResult
  now : ℚ

/-- The `for i in range(5)` block-fetch loop (source lines 477-492).
Returns the collected blocks (`none` in the first component when an
expression inside the loop raised, aborting the enclosing `try`) together
with the number of HTTP attempts performed before returning or raising. -/
def fetch_recent_blocks (retries : Nat) (env : SepoliaEnv)
    (latest_block : Int) : Option (List RecentBlock) × Nat :=
  [0, 1, 2, 3, 4].foldl
    (fun acc i =>
      match acc with
      | (none, n) => (none, n)
      | (some recent_blocks, n) =>
        let block_num := latest_block - i
        if block_num > 0 then
          let br := make_request_with_retry retries (env.getBlock block_num)
          let n := n + br.2.1.latencies.length
          match br.1 with
          | none => (some recent_blocks, n)
          | some block_response =>
            if block_response.status_code == 200 then
              match block_response.body with
              | none => (none, n)
              | some j =>
                match j.get "result" (.dict []) with
                | none => (none, n)
                | some block_data =>
                  if block_data.truthy then
                    match block_data.get "timestamp" (.str "0x0") with
                    | none => (none, n)
                    | some tsv =>
                      match pyIntHex16 tsv with
                      | none => (none, n)
                      | some timestamp =>
                        (some (recent_blocks ++ [⟨block_num, timestamp⟩]), n)
                  else (some recent_blocks, n)
            else (some recent_blocks, n)
        else (some recent_blocks, n))
    (some [], 0)

/-- Sepolia block-number handling (source lines 467-524): stores the
latest block, fetches up to five recent blocks, and when at least two
were collected analyses block times, possibly appending the
behind-on-sync issue.  A raise after `latest_block` was stored keeps the
stored value (the `except` only logs).  The index loop over consecutive
sorted pairs is expressed with `zip` on the sorted list and its tail. -/
def sepolia_block_number_block (retries : Nat) (env : SepoliaEnv)
    (resp : Option Response) (r : SepoliaResults) : SepoliaResults × Nat :=
  match resp with
  | none => (r, 0)
  | some response =>
    if response.status_code == 200 then
      match response.body with
      | none => (r, 0)
      | some j =>
        match j.get "result" (.str "0x0") with
        | none => (r, 0)
        | some block_hex =>
          match pyIntHex16 block_hex with
          | none => (r, 0)
          | some latest_block =>
            let r := { r with latest_block := latest_block }
            match fetch_recent_blocks retries env latest_block with
            | (none, n) => (r, n)
            | (some recent_blocks, n) =>
              if recent_blocks.length ≥ 2 then
                let sorted := recent_blocks.mergeSort
                  (fun a b => decide (a.number ≤ b.number))
                let block_times : List Int := (sorted.zip sorted.tail).map
                  (fun p => p.2.timestamp - p.1.timestamp)
                if !block_times.isEmpty then
                  let avg_block_time := mean (block_times.map (fun d => (d : ℚ)))
                  let last_block_time :=
                    env.now - ((sorted.getLastD ⟨0, 0⟩).timestamp : ℚ)
                  let r := { r with
                    block_time_analysis := some (avg_block_time, last_block_time) }
                  if last_block_time > 60 then
                    ({ r with issues := r.issues ++
                        ["Node may be behind on sync"] }, n)
                  else (r, n)
                else (r, n)
              else (r, n)
    else (r, 0)

/-- Sepolia sync-status handling (source lines 531-559): `result` exactly
`False` marks the node synced; a dict result may append the
blocks-behind issue; any other shape only logs. -/
def sepolia_sync_block (resp : Option Response) (r : SepoliaResults) :
    SepoliaResults :=
  match resp with
  | none => r
  | some response =>
    if response.status_code == 200 then
      match response.body with
      | none => r
      | some j =>
        match j.get "result" .null with
        | none => r
        | some sync_result =>
          match sync_result with
          | .bool false => { r with synced := true }
          | .dict kvs =>
            match (PyVal.dict kvs).get "currentBlock" (.str "0x0") with
            | none => r
            | some cbv =>
              match pyIntHex16 cbv with
              | none => r
              | some current_block =>
                match (PyVal.dict kvs).get "highestBlock" (.str "0x0") with
                | none => r
                | some hbv =>
                  match pyIntHex16 hbv with
                  | none => r
                  | some highest_block =>
                    let blocks_behind := highest_block - current_block
                    if blocks_behind > 1000 then
                      { r with issues := r.issues ++
                          ["Syncing: " ++ fmtComma blocks_behind ++
                           " blocks behind"] }
                    else r
          | _ => r
    else r

/-- Sepolia peer-count handling (source lines 566-584): parses `result`
as a base-16 int, stores it, and classifies it by the ≥25 / ≥10 / ≥3
tiers, the lower two of which append an issue. -/
def sepolia_peer_block (resp : Option Response) (r : SepoliaResults) :
    SepoliaResults :=
  match resp with
  | none => r
  | some response =>
    if response.status_code == 200 then
      match response.body with
      | none => r
      | some j =>
        match j.get "result" (.str "0x0") with
        | none => r
        | some peer_hex =>
          match pyIntHex16 peer_hex with
          | none => r
          | some peer_count =>
            let r := { r with peers := peer_count }
            if peer_count ≥ 25 then r
            else if peer_count ≥ 10 then r
            else if peer_count ≥ 3 then
              { r with issues := r.issues ++
                  ["Low peer count may affect sync performance"] }
            else
              { r with issues := r.issues ++
                  ["Very low peer count - check network connectivity"] }
    else r

/-- Model of `check_sepolia_rpc_enhanced` (source lines 407-586), paired with the
trace of probe effects performed; overall `none` as for the beacon
check. -/
def check_sepolia_rpc_enhanced (timeout : Nat) (retries : Nat) (url : String)
    (env : SepoliaEnv) : Option (SepoliaResults × Trace) :=
  match parse_url url 8545 with
  | none =>
    some ({ reachable := false, issues := ["Invalid URL format"] }, ⟨0, 0⟩)
  | some (host, port) =>
    if host = "" then
      some ({ reachable := false, issues := ["Invalid URL format"] }, ⟨0, 0⟩)
    else
      let connection_attempts := test_connection_advanced retries env.conn
      match diagnose_connection_issues timeout port connection_attempts with
      | none => none
      | some (_status, details) =>
        let sepolia_results : SepoliaResults := {}
        if !(connection_attempts.any (fun a => a.success)) then
          some ({ sepolia_results with
                    issues := sepolia_results.issues ++ details },
                ⟨connection_attempts.length, 0⟩)
        else
          let sepolia_results := { sepolia_results with reachable := true }
          let cc := make_request_with_retry retries env.chainId
          let sepolia_results := { sepolia_results with
            performance := sepolia_results.performance ++
              [("chain_id_check", cc.2.1)] }
          let sepolia_results := sepolia_chain_id_block cc.1 sepolia_results
          let bc := make_request_with_retry retries env.blockNumber
          let sepolia_results := { sepolia_results with
            performance := sepolia_results.performance ++
              [("block_number_check", bc.2.1)] }
          let rb := sepolia_block_number_block retries env bc.1 sepolia_results
          let sepolia_results := rb.1
          let sc := make_request_with_retry retries env.ethSyncing
          let sepolia_results := { sepolia_results with
            performance := sepolia_results.performance ++
              [("sync_check", sc.2.1)] }
          let sepolia_results := sepolia_sync_block sc.1 sepolia_results
          let pc := make_request_with_retry retries env.peerCount
          let sepolia_results := { sepolia_results with
            performance := sepolia_results.performance ++
              [("peer_check", pc.2.1)] }
          let sepolia_results := sepolia_peer_block pc.1 sepolia_results
          some (sepolia_results,
                ⟨connection_attempts.length,
                 cc.2.1.latencies.length + bc.2.1.latencies.length + rb.2 +
                   sc.2.1.latencies.length + pc.2.1.latencies.length⟩)

/-- Model of `print_enhanced_summary` (source lines 588-695), reduced to its
returned value: the printing is terminal presentation with no effect on
the result.  `beacon_healthy` is `reachable and healthy` (line 593),
`sepolia_healthy` is `reachable` alone (line 594), and the function
returns their conjunction (line 695). -/
def print_enhanced_summary (beacon_results : BeaconResults)
    (sepolia_results : SepoliaResults) : Bool :=
  let beacon_healthy := beacon_results.reachable && beacon_results.healthy
  let sepolia_healthy := sepolia_results.reachable
  beacon_healthy && sepolia_healthy

/-- The process exit code of a single (non-monitor) run of `main` (source
line 980): `sys.exit(0 if all_healthy else 1)` where `all_healthy` is
what `print_enhanced_summary` returned. -/
def main_exit_code (beacon_results : BeaconResults)
    (sepolia_results : SepoliaResults) : Nat :=
  if print_enhanced_summary beacon_results sepolia_results then 0 else 1

/-- The beacon peer-connectivity tier of source lines 380-389, as a rank:
3 = excellent (≥50), 2 = good (≥10), 1 = minimal with warning (≥3),
0 = poor with error. -/
def beacon_peer_tier (peer_count : Nat) : Nat :=
  if peer_count ≥ 50 then 3
  else if peer_count ≥ 10 then 2
  else if peer_count ≥ 3 then 1
  else 0

/-- The Sepolia peer-connectivity tier of source lines 572-581, as a rank:
3 = excellent (≥25), 2 = good (≥10), 1 = minimal with warning (≥3),
0 = poor with error. -/
def sepolia_peer_tier (peer_count : Int) : Nat :=
  if peer_count ≥ 25 then 3
  else if peer_count ≥ 10 then 2
  else if peer_count ≥ 3 then 1
  else 0

lemma filter_success_of_all_fail {attempts : List ConnectionAttempt}
    (hall : ∀ a ∈ attempts, a.success = false) :
    attempts.filter (fun a => a.success) = [] := by
  rw [List.filter_eq_nil_iff]
  intro a ha
  simp [hall a ha]

lemma filter_fail_of_all_fail {attempts : List ConnectionAttempt}
    (hall : ∀ a ∈ attempts, a.success = false) :
    attempts.filter (fun a => !a.success) = attempts := by
  rw [List.filter_eq_self]
  intro a ha
  simp [hall a ha]

/-- Claim C2: on a non-empty attempt list in which no attempt succeeded,
`diagnose_connection_issues` returns severity `"critical"` or `"error"`,
and in particular never `"success"`. -/
theorem diagnose_no_success_severity (timeout : Nat) (port : Int)
    (attempts : List ConnectionAttempt) (hne : attempts ≠ [])
    (hall : ∀ a ∈ attempts, a.success = false) :
    ((diagnose_connection_issues timeout port attempts).map Prod.fst
        = some "critical")
    ∨ ((diagnose_connection_issues timeout port attempts).map Prod.fst
        = some "error") := by
  unfold diagnose_connection_issues
  rw [filter_success_of_all_fail hall, filter_fail_of_all_fail hall]
  simp only [List.isEmpty_nil, if_true]
  rw [if_neg (by simpa [List.isEmpty_iff] using hne)]
  split_ifs <;> simp

/-- Witness for C2 at a concrete failing attempt list. -/
theorem diagnose_no_success_severity_witness :
    ((diagnose_connection_issues 15 5052
        [{ success := false, latency := 100, attempt := 1, error := none }]).map
          Prod.fst = some "critical")
    ∨ ((diagnose_connection_issues 15 5052
        [{ success := false, latency := 100, attempt := 1, error := none }]).map
          Prod.fst = some "error") :=
  diagnose_no_success_severity 15 5052 _ (by simp) (by simp)

/-- Counterexample to C3 as stated: with `timeout = 2` seconds and a
single failed attempt of latency 1800 ms, the mean latency equals exactly
90% of the timeout in milliseconds, yet the severity returned is
`"error"`, not `"critical"` — the source compares with strict `>`
(line 221), so the boundary case falls through (and `1800 > 5000` fails
too). -/
theorem diagnose_exact_ninety_pct_not_critical :
    mean (([{ success := false, latency := 1800, attempt := 1, error := none }] :
        List ConnectionAttempt).map (fun a => a.latency))
      = (2 : ℚ) * 1000 * (9/10)
    ∧ (diagnose_connection_issues 2 5052
        [{ success := false, latency := 1800, attempt := 1, error := none }]).map
          Prod.fst = some "error" := by
  constructor
  · norm_num [mean]
  · norm_num [diagnose_connection_issues, mean]

/-- Claim C3 (amended): on a non-empty all-failed attempt list,
`diagnose_connection_issues` returns `"critical"` whenever the mean
latency is STRICTLY GREATER than 90% of the timeout in milliseconds; at
exactly 90% the first branch is not taken. -/
theorem diagnose_no_success_strict_timeout (timeout : Nat) (port : Int)
    (attempts : List ConnectionAttempt) (hne : attempts ≠ [])
    (hall : ∀ a ∈ attempts, a.success = false)
    (havg : mean (attempts.map (fun a => a.latency))
        > (timeout : ℚ) * 1000 * (9/10)) :
    (diagnose_connection_issues timeout port attempts).map Prod.fst
      = some "critical" := by
  unfold diagnose_connection_issues
  rw [filter_success_of_all_fail hall, filter_fail_of_all_fail hall]
  simp only [List.isEmpty_nil, if_true]
  rw [if_neg (by simpa [List.isEmpty_iff] using hne), if_pos havg]
  simp

/-- Witness for the amended C3 at a concrete input: mean 2000 ms against a
1-second timeout (threshold 900 ms). -/
theorem diagnose_no_success_strict_timeout_witness :
    (diagnose_connection_issues 1 8545
        [{ success := false, latency := 2000, attempt := 1, error := none }]).map
          Prod.fst = some "critical" :=
  diagnose_no_success_strict_timeout 1 8545 _ (by simp) (by simp)
    (by norm_num [mean])

/-- Claim C4: on a non-empty attempt list in which every attempt
succeeded and whose mean latency is under 1000 ms,
`diagnose_connection_issues` returns severity `"success"`. -/
theorem diagnose_all_success_fast (timeout : Nat) (port : Int)
    (attempts : List ConnectionAttempt) (hne : attempts ≠ [])
    (hall : ∀ a ∈ attempts, a.success = true)
    (hlat : mean (attempts.map (fun a => a.latency)) < 1000) :
    (diagnose_connection_issues timeout port attempts).map Prod.fst
      = some "success" := by
  have hf : attempts.filter (fun a => a.success) = attempts := by
    rw [List.filter_eq_self]
    intro a ha
    simp [hall a ha]
  have hlen0 : attempts.length ≠ 0 := by
    intro h
    exact hne (List.length_eq_zero.mp h)
  have hlen : (attempts.length : ℚ) ≠ 0 := Nat.cast_ne_zero.mpr hlen0
  unfold diagnose_connection_issues
  rw [hf]
  rw [if_neg (by simpa [List.isEmpty_iff] using hne)]
  rw [if_neg (by rw [div_self hlen, one_mul]; norm_num)]
  rw [if_neg (by simpa using not_lt.mpr hlat.le)]
  simp

/-- Witness for C4 at a concrete input. -/
theorem diagnose_all_success_fast_witness :
    (diagnose_connection_issues 15 5052
        [{ success := true, latency := 100, attempt := 1, error := none }]).map
          Prod.fst = some "success" :=
  diagnose_all_success_fast 15 5052 _ (by simp) (by simp) (by norm_num [mean])

/-- Claim C9: `diagnose_connection_issues` raises (returns `none`) only on
the empty attempt list and classifies every non-empty list, and
`test_connection_advanced` appends exactly one record per retry
iteration, so its result is non-empty whenever `retries ≥ 1`. -/
theorem diagnose_total_on_probe_output (timeout : Nat) (port : Int) :
    diagnose_connection_issues timeout port [] = none
    ∧ (∀ attempts : List ConnectionAttempt, attempts ≠ [] →
        (diagnose_connection_issues timeout port attempts).isSome = true)
    ∧ (∀ (retries : Nat) (env : Nat → ConnOutcome),
        (test_connection_advanced retries env).length = retries)
    ∧ (∀ (retries : Nat) (env : Nat → ConnOutcome), 1 ≤ retries →
        test_connection_advanced retries env ≠ []) := by
  refine ⟨rfl, ?_, ?_, ?_⟩
  · intro attempts hne
    rcases attempts with _ | ⟨a, t⟩
    · exact absurd rfl hne
    simp only [diagnose_connection_issues]
    by_cases hs : a.success = true
    · have hsucc : ((a :: t).filter (fun x => x.success)).isEmpty = false := by
        simp [List.filter_cons, hs]
      rw [hsucc]
      split_ifs <;> simp_all
    · have hfail : ((a :: t).filter (fun x => !x.success)).isEmpty = false := by
        simp [List.filter_cons, hs]
      rw [hfail]
      split_ifs <;> simp_all
  · intro retries env
    simp [test_connection_advanced]
  · intro retries env hr
    have : (test_connection_advanced retries env).length = retries := by
      simp [test_connection_advanced]
    intro hcon
    rw [hcon] at this
    simp at this
    omega

/-- Witness for C9 at concrete inputs: a singleton list is classified, and
a 2-retry probe produces a non-empty attempt list. -/
theorem diagnose_total_on_probe_output_witness :
    (diagnose_connection_issues 15 5052
        [{ success := false, latency := 100, attempt := 1, error := none }]).isSome
      = true
    ∧ test_connection_advanced 2 (fun _ => ConnOutcome.code 0 0) ≠ [] :=
  ⟨(diagnose_total_on_probe_output 15 5052).2.1 _ (by simp),
   (diagnose_total_on_probe_output 15 5052).2.2.2 2 _ (by norm_num)⟩

lemma requestLoop_latencies_le (env : Nat → AttemptResult) (retries : Nat) :
    ∀ (fuel attempt : Nat) (lats : List ℚ) (errs : List String) (sl : List ℚ),
      ((requestLoop env retries fuel attempt lats errs sl).2.1).latencies.length
        ≤ lats.length + fuel := by
  intro fuel
  induction fuel with
  | zero =>
    intro attempt lats errs sl
    simp [requestLoop]
  | succ f ih =>
    intro attempt lats errs sl
    simp only [requestLoop]
    cases henv : env attempt with
    | ok resp latency =>
      cases h200 : resp.status_code == 200 with
      | true =>
        simp only [h200, if_true]
        simp
      | false =>
        simp only [h200, Bool.false_eq_true, if_false]
        have := ih (attempt + 1) (lats ++ [latency])
          (errs ++ ["HTTP " ++ toString resp.status_code]) sl
        simp at this
        omega
    | exn msg latency =>
      have h := ih (attempt + 1) (lats ++ [latency]) (errs ++ [msg])
        (if attempt < retries - 1 then sl ++ [(500 : ℚ)] else sl)
      have h2 : (lats ++ [latency]).length + f = lats.length + (f + 1) := by
        simp only [List.length_append, List.length_singleton]
        omega
      exact h.trans_eq h2

lemma requestLoop_all_fail (env : Nat → AttemptResult) (retries : Nat) :
    ∀ (fuel attempt : Nat) (lats : List ℚ) (errs : List String) (sl : List ℚ),
      (∀ i, i < fuel → is200 (env (attempt + i)) = false) →
      (requestLoop env retries fuel attempt lats errs sl).1 = none
      ∧ ((requestLoop env retries fuel attempt lats errs sl).2.1).latencies.length
          = lats.length + fuel
      ∧ ((requestLoop env retries fuel attempt lats errs sl).2.1).attempts
          = retries := by
  intro fuel
  induction fuel with
  | zero =>
    intro attempt lats errs sl _h
    simp [requestLoop]
  | succ f ih =>
    intro attempt lats errs sl h
    have h0 : is200 (env attempt) = false := by
      have := h 0 (by omega)
      simpa using this
    have hshift : ∀ i, i < f → is200 (env (attempt + 1 + i)) = false := by
      intro i hi
      have heq : attempt + 1 + i = attempt + (i + 1) := by omega
      rw [heq]
      exact h (i + 1) (by omega)
    simp only [requestLoop]
    cases henv : env attempt with
    | ok resp latency =>
      have hne200 : (resp.status_code == 200) = false := by
        rw [henv] at h0
        simpa [is200] using h0
      simp only [hne200, Bool.false_eq_true, if_false]
      have := ih (attempt + 1) (lats ++ [latency])
        (errs ++ ["HTTP " ++ toString resp.status_code]) sl hshift
      simp at this
      refine ⟨this.1, by simp [this.2.1]; omega, this.2.2⟩
    | exn msg latency =>
      have := ih (attempt + 1) (lats ++ [latency]) (errs ++ [msg])
        (if attempt < retries - 1 then sl ++ [(500 : ℚ)] else sl) hshift
      simp at this
      refine ⟨this.1, by simp [this.2.1]; omega, this.2.2⟩

lemma requestLoop_first_success (env : Nat → AttemptResult) (retries : Nat) :
    ∀ (fuel k attempt : Nat) (lats : List ℚ) (errs : List String) (sl : List ℚ)
      (resp : Response) (lat : ℚ),
      k < fuel →
      env (attempt + k) = .ok resp lat →
      resp.status_code = 200 →
      (∀ j, j < k → is200 (env (attempt + j)) = false) →
      (requestLoop env retries fuel attempt lats errs sl).1 = some resp
      ∧ ((requestLoop env retries fuel attempt lats errs sl).2.1).latencies.length
          = lats.length + k + 1
      ∧ ((requestLoop env retries fuel attempt lats errs sl).2.1).attempts
          = attempt + k + 1 := by
  intro fuel
  induction fuel with
  | zero =>
    intro k attempt lats errs sl resp lat hk
    omega
  | succ f ih =>
    intro k attempt lats errs sl resp lat hk henv h200 hbefore
    cases k with
    | zero =>
      simp only [Nat.add_zero] at henv
      simp only [requestLoop, henv]
      have : (resp.status_code == 200) = true := by simp [h200]
      simp [this]
    | succ k0 =>
      have h0 : is200 (env attempt) = false := by
        have := hbefore 0 (by omega)
        simpa using this
      have henv0 : env (attempt + 1 + k0) = .ok resp lat := by
        have heq : attempt + 1 + k0 = attempt + (k0 + 1) := by omega
        rw [heq]
        exact henv
      have hbefore0 : ∀ j, j < k0 → is200 (env (attempt + 1 + j)) = false := by
        intro j hj
        have heq : attempt + 1 + j = attempt + (j + 1) := by omega
        rw [heq]
        exact hbefore (j + 1) (by omega)
      simp only [requestLoop]
      cases henvA : env attempt with
      | ok respA latA =>
        have hne200 : (respA.status_code == 200) = false := by
          rw [henvA] at h0
          simpa [is200] using h0
        simp only [hne200, Bool.false_eq_true, if_false]
        have := ih k0 (attempt + 1) (lats ++ [latA])
          (errs ++ ["HTTP " ++ toString respA.status_code]) sl resp lat
          (by omega) henv0 h200 hbefore0
        refine ⟨this.1, by simp [this.2.1]; omega, by rw [this.2.2]; omega⟩
      | exn msg latA =>
        have := ih k0 (attempt + 1) (lats ++ [latA]) (errs ++ [msg])
          (if attempt < retries - 1 then sl ++ [(500 : ℚ)] else sl) resp lat
          (by omega) henv0 h200 hbefore0
        refine ⟨this.1, by simp [this.2.1]; omega, by rw [this.2.2]; omega⟩

/-- Claim C5: `make_request_with_retry` performs at most `retries` HTTP
attempts; it returns `none` exactly when every one of the `retries`
attempts had a non-200 status or raised (and then all `retries` latencies
were collected); and at the first attempt whose status is 200 it returns
that response immediately, having consumed exactly the first `k + 1`
attempts. -/
theorem make_request_with_retry_spec (retries : Nat) (env : Nat → AttemptResult) :
    ((make_request_with_retry retries env).2.1.latencies.length ≤ retries)
    ∧ ((make_request_with_retry retries env).1 = none ↔
        ∀ i, i < retries → is200 (env i) = false)
    ∧ ((make_request_with_retry retries env).1 = none →
        (make_request_with_retry retries env).2.1.latencies.length = retries)
    ∧ (∀ (k : Nat) (resp : Response) (lat : ℚ), k < retries →
        env k = .ok resp lat → resp.status_code = 200 →
        (∀ j, j < k → is200 (env j) = false) →
        (make_request_with_retry retries env).1 = some resp
        ∧ (make_request_with_retry retries env).2.1.latencies.length = k + 1
        ∧ (make_request_with_retry retries env).2.1.attempts = k + 1) := by
  have hfail := fun h => requestLoop_all_fail env retries retries 0 [] [] [] h
  have hfirst := requestLoop_first_success env retries retries
  constructor
  · have := requestLoop_latencies_le env retries retries 0 [] [] []
    simpa [make_request_with_retry] using this
  constructor
  · constructor
    · intro hnone
      by_contra hcon
      push_neg at hcon
      obtain ⟨i, hi, hne⟩ := hcon
      have hP : ∃ j, is200 (env j) = true := by
        refine ⟨i, ?_⟩
        cases h : is200 (env i)
        · exact absurd h hne
        · rfl
      set k := Nat.find hP with hk
      have hk200 : is200 (env k) = true := Nat.find_spec hP
      have hkmin : ∀ j, j < k → is200 (env j) = false := by
        intro j hj
        have := Nat.find_min hP hj
        cases h : is200 (env j)
        · rfl
        · exact absurd h this
      have hklt : k < retries := by
        have : k ≤ i := Nat.find_min' hP (by
          cases h : is200 (env i)
          · exact absurd h hne
          · rfl)
        omega
      cases henv : env k with
      | ok resp lat =>
        have h200 : resp.status_code = 200 := by
          rw [henv] at hk200
          simpa [is200] using hk200
        have := (hfirst k 0 [] [] [] resp lat hklt (by simpa using henv) h200
          (by simpa using hkmin)).1
        rw [make_request_with_retry] at hnone
        rw [this] at hnone
        exact Option.noConfusion hnone
      | exn msg lat =>
        rw [henv] at hk200
        simp [is200] at hk200
    · intro hall
      have := (hfail (by simpa using hall)).1
      simpa [make_request_with_retry] using this
  constructor
  · intro hnone
    have hall : ∀ i, i < retries → is200 (env i) = false := by
      revert hnone
      intro hnone
      by_contra hcon
      push_neg at hcon
      obtain ⟨i, hi, hne⟩ := hcon
      have hP : ∃ j, is200 (env j) = true := by
        refine ⟨i, ?_⟩
        cases h : is200 (env i)
        · exact absurd h hne
        · rfl
      set k := Nat.find hP with hk
      have hk200 : is200 (env k) = true := Nat.find_spec hP
      have hkmin : ∀ j, j < k → is200 (env j) = false := by
        intro j hj
        have := Nat.find_min hP hj
        cases h : is200 (env j)
        · rfl
        · exact absurd h this
      have hklt : k < retries := by
        have : k ≤ i := Nat.find_min' hP (by
          cases h : is200 (env i)
          · exact absurd h hne
          · rfl)
        omega
      cases henv : env k with
      | ok resp lat =>
        have h200 : resp.status_code = 200 := by
          rw [henv] at hk200
          simpa [is200] using hk200
        have := (hfirst k 0 [] [] [] resp lat hklt (by simpa using henv) h200
          (by simpa using hkmin)).1
        rw [make_request_with_retry] at hnone
        rw [this] at hnone
        exact Option.noConfusion hnone
      | exn msg lat =>
        rw [henv] at hk200
        simp [is200] at hk200
    have := (hfail (by simpa using hall)).2.1
    simpa [make_request_with_retry] using this
  · intro k resp lat hk henv h200 hbefore
    have := hfirst k 0 [] [] [] resp lat hk (by simpa using henv) h200
      (by simpa using hbefore)
    refine ⟨?_, ?_, ?_⟩
    · simpa [make_request_with_retry] using this.1
    · simpa [make_request_with_retry] using this.2.1
    · simpa [make_request_with_retry] using this.2.2

lemma requestLoop_sleeps (env : Nat → AttemptResult) (retries : Nat) :
    ∀ (fuel attempt : Nat) (lats : List ℚ) (errs : List String) (sl : List ℚ),
      (requestLoop env retries fuel attempt lats errs sl).2.2
        = sl ++ (((List.range' attempt fuel).takeWhile
              (fun i => !is200 (env i))).filter
            (fun i => isExn (env i) && decide (i < retries - 1))).map
            (fun _ => (500 : ℚ)) := by
  intro fuel
  induction fuel with
  | zero =>
    intro attempt lats errs sl
    simp [requestLoop]
  | succ f ih =>
    intro attempt lats errs sl
    rw [List.range'_succ]
    simp only [requestLoop]
    cases henv : env attempt with
    | ok resp latency =>
      cases h200 : resp.status_code == 200 with
      | true =>
        have hA : is200 (AttemptResult.ok resp latency) = true := by
          simp [is200, h200]
        simp [h200, List.takeWhile_cons, henv, hA]
      | false =>
        have hA : is200 (AttemptResult.ok resp latency) = false := by
          simp [is200, h200]
        have hB : isExn (AttemptResult.ok resp latency) = false := rfl
        have ht := ih (attempt + 1) (lats ++ [latency])
          (errs ++ ["HTTP " ++ toString resp.status_code]) sl
        simp [h200, List.takeWhile_cons, List.filter_cons, henv, hA, hB, ht]
    | exn msg latency =>
      have hA : is200 (AttemptResult.exn msg latency) = false := rfl
      have hB : isExn (AttemptResult.exn msg latency) = true := rfl
      by_cases hlt : attempt < retries - 1
      · have ht := ih (attempt + 1) (lats ++ [latency]) (errs ++ [msg])
          (sl ++ [(500 : ℚ)])
        simp [hlt, List.takeWhile_cons, List.filter_cons, henv, hA, hB, ht]
      · have ht := ih (attempt + 1) (lats ++ [latency]) (errs ++ [msg]) sl
        simp [hlt, List.takeWhile_cons, List.filter_cons, henv, hA, hB, ht]

/-- Claim C6 (amended): the 500 ms waits `make_request_with_retry`
performs are exactly one per consumed attempt that RAISED AN EXCEPTION
and was not the last allowed attempt; an attempt that failed with a
non-200 HTTP status is retried immediately, with no wait (the
`time.sleep(0.5)` sits inside the `except` clause only, source lines
196-203). -/
theorem make_request_sleep_trace (retries : Nat) (env : Nat → AttemptResult) :
    (make_request_with_retry retries env).2.2
      = (((List.range retries).takeWhile (fun i => !is200 (env i))).filter
          (fun i => isExn (env i) && decide (i < retries - 1))).map
          (fun _ => (500 : ℚ)) := by
  have := requestLoop_sleeps env retries retries 0 [] [] []
  simpa [make_request_with_retry, List.range_eq_range'] using this

/-- Environment refuting C6 as stated: attempt 0 answers HTTP 404,
attempt 1 answers HTTP 200. -/
def envC6 : Nat → AttemptResult := fun i =>
  if i = 0 then .ok ⟨404, none⟩ 3 else .ok ⟨200, none⟩ 4

/-- Counterexample to C6 as stated: with 2 retries, attempt 0 fails with
HTTP status 404 and attempt 1 is still issued (two latencies collected),
yet the executor performed no wait at all — the sleep trace is empty,
not the 500 ms wait the claim requires between consecutive attempts. -/
theorem no_wait_after_http_status_failure :
    is200 (envC6 0) = false
    ∧ (make_request_with_retry 2 envC6).2.1.latencies.length = 2
    ∧ (make_request_with_retry 2 envC6).2.2 = [] := by
  refine ⟨rfl, rfl, rfl⟩

/-- Environment for the C5 witness: attempt 0 raises, attempt 1 answers
HTTP 200. -/
def envC5 : Nat → AttemptResult := fun i =>
  if i = 0 then .exn "Connection refused" 5 else .ok ⟨200, none⟩ 7

/-- Witness for C5: in the concrete environment `envC5` the first
status-200 attempt is attempt 1, and the executor returns that response
having consumed exactly two attempts. -/
theorem make_request_with_retry_spec_witness :
    (make_request_with_retry 3 envC5).1 = some ⟨200, none⟩
    ∧ (make_request_with_retry 3 envC5).2.1.latencies.length = 2 := by
  have h := (make_request_with_retry_spec 3 envC5).2.2.2 1 ⟨200, none⟩ 7
    (by omega) rfl rfl
    (by
      intro j hj
      have hj0 : j = 0 := by omega
      subst hj0
      rfl)
  exact ⟨h.1, h.2.1⟩

/-- Claim C1: `print_enhanced_summary` derives `beacon_healthy` as
`reachable and healthy` and `sepolia_healthy` as `reachable` (the
execution node has no further criterion), returns their conjunction, and
the single-run `main` exit code is 0 exactly when that conjunction holds;
in particular an unreachable beacon forces exit code 1 regardless of the
execution-node results. -/
theorem summary_and_exit_code (b : BeaconResults) (s : SepoliaResults) :
    print_enhanced_summary b s = ((b.reachable && b.healthy) && s.reachable)
    ∧ main_exit_code b s
        = (if ((b.reachable && b.healthy) && s.reachable) = true then 0 else 1)
    ∧ (b.reachable = false → main_exit_code b s = 1) := by
  refine ⟨rfl, rfl, ?_⟩
  intro h
  simp [main_exit_code, print_enhanced_summary, h]

/-- Witness for C1: an unreachable beacon record gives exit code 1 even
against a fully healthy execution record. -/
theorem summary_and_exit_code_witness :
    main_exit_code { reachable := false }
      { reachable := true, synced := true, chain_id := 11155111, peers := 10 }
      = 1 :=
  (summary_and_exit_code { reachable := false }
    { reachable := true, synced := true, chain_id := 11155111, peers := 10 }).2.2
    rfl

/-- Claim C7: on a status-200 chain-ID response whose `result` field
parses as an integer, the execution check stores the chain ID and
classifies it — 11155111 adds no issue (expected Sepolia), 1 adds the
wrong-network issue, and every other value adds an unknown-network issue
naming the ID. -/
theorem chain_id_classification (r : SepoliaResults) (j v : PyVal) (c : Int)
    (hres : j.get "result" (.str "0x0") = some v)
    (hparse : pyIntHex16 v = some c) :
    sepolia_chain_id_block (some ⟨200, some j⟩) r
      = (if c == 11155111 then { r with chain_id := c }
         else if c == 1 then
           { r with
               chain_id := c,
               issues := r.issues ++
                 ["Wrong network - connected to mainnet"] }
         else
           { r with
               chain_id := c,
               issues := r.issues ++
                 ["Unknown network (Chain ID: " ++ toString c ++ ")"] }) := by
  simp only [sepolia_chain_id_block, hres, hparse]
  norm_num

/-- Witness for C7: a `result` of `"0xaa36a7"` (11155111) sets the chain
ID and adds no issue. -/
theorem chain_id_classification_witness :
    sepolia_chain_id_block
        (some ⟨200, some (.dict [("result", .str "0xaa36a7")])⟩) {}
      = { chain_id := 11155111 } := by
  have h := chain_id_classification {} (.dict [("result", .str "0xaa36a7")])
    (.str "0xaa36a7") 11155111 rfl rfl
  rw [h]
  norm_num

/-- Claim C8: both peer-count classifications are monotone — a weakly
larger peer count never receives a strictly worse connectivity tier, for
the beacon tiers ≥50 / ≥10 / ≥3 and the execution tiers ≥25 / ≥10 / ≥3. -/
theorem peer_tier_monotone :
    (∀ p1 p2 : Nat, p1 ≤ p2 → beacon_peer_tier p1 ≤ beacon_peer_tier p2)
    ∧ (∀ q1 q2 : Int, q1 ≤ q2 → sepolia_peer_tier q1 ≤ sepolia_peer_tier q2) := by
  constructor
  · intro a b hab
    unfold beacon_peer_tier
    split_ifs <;> omega
  · intro a b hab
    unfold sepolia_peer_tier
    split_ifs <;> omega

/-- Witness for C8 at concrete peer counts. -/
theorem peer_tier_monotone_witness :
    beacon_peer_tier 5 ≤ beacon_peer_tier 12
    ∧ sepolia_peer_tier 2 ≤ sepolia_peer_tier 30 :=
  ⟨peer_tier_monotone.1 5 12 (by omega), peer_tier_monotone.2 2 30 (by omega)⟩

/-- Claim C10: when `parse_url` fails on the URL, each check returns the
invalid-URL record — unreachable, with the single issue
`"Invalid URL format"` — having performed no TCP connect attempt and no
HTTP request (empty effect trace), and without raising. -/
theorem invalid_url_early_return (url : String) (timeout retries : Nat)
    (envB : BeaconEnv) (envS : SepoliaEnv) :
    (parse_url url 5052 = none →
      check_beacon_node_enhanced timeout retries url envB
        = some ({ reachable := false, healthy := false,
                  issues := ["Invalid URL format"] },
                ⟨0, 0⟩))
    ∧ (parse_url url 8545 = none →
      check_sepolia_rpc_enhanced timeout retries url envS
        = some ({ reachable := false, issues := ["Invalid URL format"] },
                ⟨0, 0⟩)) := by
  constructor
  · intro h
    simp [check_beacon_node_enhanced, h]
  · intro h
    simp [check_sepolia_rpc_enhanced, h]

/-- Environment whose beacon connection and endpoint calls all fail (used
only to instantiate the C10 witness). -/
def envBTrivial : BeaconEnv :=
  { conn := fun _ => .exn "unreachable" 0,
    health := fun _ => .exn "unreachable" 0,
    syncing := fun _ => .exn "unreachable" 0,
    peers := fun _ => .exn "unreachable" 0,
    version := fun _ => .exn "unreachable" 0 }

/-- Environment whose Sepolia connection and endpoint calls all fail
(used only to instantiate the C10 witness). -/
def envSTrivial : SepoliaEnv :=
  { conn := fun _ => .exn "unreachable" 0,
    chainId := fun _ => .exn "unreachable" 0,
    blockNumber := fun _ => .exn "unreachable" 0,
    getBlock := fun _ _ => .exn "unreachable" 0,
    ethSyncing := fun _ => .exn "unreachable" 0,
    peerCount := fun _ => .exn "unreachable" 0,
    now := 0 }

/-- Witness for C10: `"http://h:abc"` has a non-integer port segment, so
`parse_url` fails and both checks return the invalid-URL record with an
empty effect trace. -/
theorem invalid_url_early_return_witness :
    parse_url "http://h:abc" 5052 = none
    ∧ check_beacon_node_enhanced 15 3 "http://h:abc" envBTrivial
        = some ({ reachable := false, healthy := false,
                  issues := ["Invalid URL format"] },
                ⟨0, 0⟩)
    ∧ check_sepolia_rpc_enhanced 15 3 "http://h:abc" envSTrivial
        = some ({ reachable := false, issues := ["Invalid URL format"] },
                ⟨0, 0⟩) := by
  have hB : parse_url "http://h:abc" 5052 = none := rfl
  have hS : parse_url "http://h:abc" 8545 = none := rfl
  exact ⟨hB,
    (invalid_url_early_return "http://h:abc" 15 3 envBTrivial envSTrivial).1 hB,
    (invalid_url_early_return "http://h:abc" 15 3 envBTrivial envSTrivial).2 hS⟩
